import Mathlib

/-!
Verification of the NextGen 5Ws API routing layer.

The repository consists of two source files:
  * `src/main.py` — application setup: CORS origin configuration from the
    environment, the global exception handler, router mounting.
  * `src/nextgen_router.py` — the route handlers `index`, `get_capabilities`,
    `heartbeat` and `generate_5ws`, including the typed-fault dispatch of
    `/generate`.

Modules the router imports (`app.exceptions.custom_exceptions`,
`app.config.error_codes`, `app.models.request`, `app.services.llm_service`,
`app.config.logger`) are part of the repository but are not present in the
sources we have; where their behaviour is needed it is modelled from the
specification, and each such definition says so in its doc comment.
-/

/-- A JSON value, as serialized into response bodies. -/
inductive Json where
  | str (s : String)
  | num (n : Int)
  | bool (b : Bool)
  | null
  | arr (xs : List Json)
  | obj (fields : List (String × Json))
deriving Repr

/-- The kinds of exception that can reach the except-clauses of
`generate_5ws` in `src/nextgen_router.py`: the two validation error classes
(pydantic `ValidationError`, FastAPI `RequestValidationError`), the custom
fault classes imported from `app.exceptions.custom_exceptions`, and a
catch-all for every other Python exception.

Modelled from the spec: the module `app.exceptions.custom_exceptions` is not
under `src/`; §7 of the spec gives the closed taxonomy InvalidPayload,
NotFound, Network, LLMProvider, Timeout, Generic (`NextGenException`).  The
spec states no inheritance hierarchy among the custom classes, so each
`except SomeException` clause is modelled as matching exactly its own kind. -/
inductive ExcKind where
  | validationError
  | requestValidationError
  | invalidPayloadException
  | notFoundException
  | networkException
  | llmProviderException
  | timeoutException
  | nextGenException
  | otherException
deriving Repr, DecidableEq

/-- An exception value as it flows through the handlers: its class (kind) and
its detail/message string.  Re-raising the same `Exc` value models Python's
`raise e` of the caught object, which preserves every attribute of it
(in particular the status code bound to its class and its detail). -/
structure Exc where
  kind : ExcKind
  detail : String
deriving Repr, DecidableEq

/-- Python's `str(e)` on an exception: its message.  For the custom
exceptions this is the detail they were constructed with. -/
def strOfExc (e : Exc) : String := e.detail

/-- Modelled from the spec: `ErrorCode.SUCCESS` comes from
`app.config.error_codes`, which is not under `src/`.  §4.3 of the spec shows
every success row of the endpoint table returning status 200. -/
def ErrorCode.SUCCESS : Nat := 200

/-- A `JSONResponse(status_code=..., content=...)` as returned by the
handlers. -/
structure JSONResponse where
  status_code : Nat
  content : Json
deriving Repr

/-- The request body of `/generate`.  Modelled from the spec:
`app.models.request.TaskRequest` is not under `src/`; §3 of the spec gives
its fields as a task name (string) and an opaque structured payload. -/
structure TaskRequest where
  task_name : String
  payload : Json
deriving Repr

/-- `index` (src/nextgen_router.py lines 15-18): returns the literal dict
`\x7b"message": "NextGen API is live!"\x7d`; FastAPI serializes a returned
dict as a JSON response with status 200.  The `logger.info` call is pure
I/O and touches no program state. -/
def index : JSONResponse :=
  { status_code := 200
    content := Json.obj [("message", Json.str "NextGen API is live!")] }

/-- The literal list `models` built inside `get_capabilities`
(src/nextgen_router.py line 23). -/
def capabilities_models : List String := ["03-mini-openai", "gpt-4", "llama-3"]

/-- The try-block of `get_capabilities` (src/nextgen_router.py lines 22-25):
builds the models list, logs, and returns
`JSONResponse(status_code=ErrorCode.SUCCESS, content=\x7b"models": models\x7d)`.
Every statement in it is a literal construction or a log call, so it is
modelled as always succeeding. -/
def get_capabilities_body : Except Exc JSONResponse :=
  Except.ok
    { status_code := ErrorCode.SUCCESS
      content := Json.obj [("models", Json.arr (capabilities_models.map Json.str))] }

/-- The except-arm of `get_capabilities` (src/nextgen_router.py lines 26-28):
`except Exception as e: raise NextGenException(detail=f"Error in
/capabilities: ...")` with `str(e)` interpolated. -/
def get_capabilities_onExc (e : Exc) : Exc :=
  { kind := ExcKind.nextGenException
    detail := "Error in /capabilities: " ++ strOfExc e }

/-- `get_capabilities` (src/nextgen_router.py lines 20-28): the try-block
result, with any exception it raised rewrapped by the except-arm. -/
def get_capabilities : Except Exc JSONResponse :=
  match get_capabilities_body with
  | Except.ok r => Except.ok r
  | Except.error e => Except.error (get_capabilities_onExc e)

/-- The try-block of `heartbeat` (src/nextgen_router.py lines 33-35): a log
call and a literal `JSONResponse`; modelled as always succeeding. -/
def heartbeat_body : Except Exc JSONResponse :=
  Except.ok
    { status_code := ErrorCode.SUCCESS
      content := Json.obj [("info", Json.str "heartbeat OK"), ("role", Json.str "backend")] }

/-- The except-arm of `heartbeat` (src/nextgen_router.py lines 36-38). -/
def heartbeat_onExc (e : Exc) : Exc :=
  { kind := ExcKind.nextGenException
    detail := "Error in /heartbeat: " ++ strOfExc e }

/-- `heartbeat` (src/nextgen_router.py lines 31-38). -/
def heartbeat : Except Exc JSONResponse :=
  match heartbeat_body with
  | Except.ok r => Except.ok r
  | Except.error e => Except.error (heartbeat_onExc e)

/-- The except-clause chain of `generate_5ws` (src/nextgen_router.py lines
47-67), applied to an exception raised in its try-block.  Clauses are tried
in source order: `(ValidationError, RequestValidationError)` raises a fresh
`InvalidPayloadException` with `str(ve)` as detail; the clauses for
`InvalidPayloadException`, `NetworkException`, `LLMProviderException`,
`TimeoutException` and `NextGenException` re-raise the caught value
unchanged; the final `except Exception` raises a `NextGenException` whose
detail interpolates `str(e)` after "Unhandled error in /generate: ". -/
def generate_dispatch (e : Exc) : Exc :=
  if e.kind = ExcKind.validationError ∨ e.kind = ExcKind.requestValidationError then
    { kind := ExcKind.invalidPayloadException, detail := strOfExc e }
  else if e.kind = ExcKind.invalidPayloadException then e
  else if e.kind = ExcKind.networkException then e
  else if e.kind = ExcKind.llmProviderException then e
  else if e.kind = ExcKind.timeoutException then e
  else if e.kind = ExcKind.nextGenException then e
  else
    { kind := ExcKind.nextGenException
      detail := "Unhandled error in /generate: " ++ strOfExc e }

/-- Whether an exception kind is matched by one of the named except-clauses
of `generate_5ws` (everything except the final `except Exception`). -/
def generateCaught (k : ExcKind) : Bool :=
  match k with
  | ExcKind.validationError => true
  | ExcKind.requestValidationError => true
  | ExcKind.invalidPayloadException => true
  | ExcKind.networkException => true
  | ExcKind.llmProviderException => true
  | ExcKind.timeoutException => true
  | ExcKind.nextGenException => true
  | _ => false

/-- `generate_5ws` (src/nextgen_router.py lines 41-67).  The outcome of the
awaited provider call `process_task(request)` is a parameter: `Except.ok r`
when the provider returns result object `r`, `Except.error e` when it (or
anything else in the try-block) raises `e`.  On success the handler returns
`JSONResponse(status_code=ErrorCode.SUCCESS, content=response)`; on an
exception the except-clause chain decides what is re-raised. -/
def generate_5ws (request : TaskRequest) (providerOutcome : Except Exc Json) :
    Except Exc JSONResponse :=
  match providerOutcome with
  | Except.ok response =>
      Except.ok { status_code := ErrorCode.SUCCESS, content := response }
  | Except.error e => Except.error (generate_dispatch e)

/-- `global_exception_handler` (src/main.py lines 28-34): for any exception
that escapes the route handlers, logs it and returns
`JSONResponse(status_code=500, content=\x7b"detail": "Internal server
error"\x7d)`.  Its body never inspects `exc` except to log it. -/
def global_exception_handler (exc : Exc) : JSONResponse :=
  { status_code := 500
    content := Json.obj [("detail", Json.str "Internal server error")] }

/-- `os.getenv(key, default)` over an environment modelled as an association
list: the bound value when the variable is set, the default otherwise. -/
def getenv (env : List (String × String)) (key defaultVal : String) : String :=
  match env.lookup key with
  | some v => v
  | none => defaultVal

/-- Python's `s.split(",")` with the single-character separator: cut the
string at every comma; a string without a comma yields the one-element list
`[s]` (so the result is never empty), and adjacent commas yield empty
pieces. -/
def splitComma (s : String) : List String :=
  s.data.foldr
    (fun c acc =>
      match acc with
      | [] => [String.mk [c]]
      | cur :: rest =>
          if c = ',' then "" :: cur :: rest
          else String.mk (c :: cur.data) :: rest)
    [""]

/-- `ALLOWED_ORIGINS` (src/main.py line 17):
`os.getenv("ALLOWED_ORIGINS", "*").split(",")`, computed once at startup and
passed as `allow_origins` to the CORS middleware. -/
def ALLOWED_ORIGINS (env : List (String × String)) : List String :=
  splitComma (getenv env "ALLOWED_ORIGINS" "*")

/-- The module-level state of the application visible across requests: the
bindings created at import time in `src/main.py` and `src/nextgen_router.py`.
The only value-carrying binding is the CORS origins list; the router, the
logger and the imported names are set up once and never reassigned. -/
structure ModuleState where
  allowed_origins : List String
deriving Repr, DecidableEq

/-- `index` in state-passing form: its body (a log call and a literal
return) reads no module-level binding and assigns none, so the state is
threaded through untouched. -/
def indexSt (s : ModuleState) : ModuleState × JSONResponse :=
  (s, index)

/-- `get_capabilities` in state-passing form: its body assigns only the
local `models` and returns a literal; no module-level name is written. -/
def get_capabilitiesSt (s : ModuleState) : ModuleState × Except Exc JSONResponse :=
  (s, get_capabilities)

/-- `heartbeat` in state-passing form: its body is a log call and a literal
return; no module-level name is written. -/
def heartbeatSt (s : ModuleState) : ModuleState × Except Exc JSONResponse :=
  (s, heartbeat)

/-- `generate_5ws` in state-passing form: beyond the outbound provider call
(whose outcome is the `providerOutcome` parameter) its body only logs and
builds its response or re-raised exception; no module-level name is
written. -/
def generate_5wsSt (s : ModuleState) (request : TaskRequest)
    (providerOutcome : Except Exc Json) : ModuleState × Except Exc JSONResponse :=
  (s, generate_5ws request providerOutcome)

/-- C1: for every well-formed `TaskRequest` with a non-empty task name, when
the provider call `process_task` succeeds and returns a result object, the
`/generate` handler returns HTTP status 200 with a JSON body equal to the
provider's result object unchanged. -/
theorem generate_success_passthrough (request : TaskRequest) (r : Json)
    (h : request.task_name ≠ "") :
    generate_5ws request (Except.ok r) =
      Except.ok { status_code := 200, content := r } := rfl

/-- Witness for C1 at the spec's concrete scenario: task name "summarize",
provider result `\x7b"result": "..."\x7d`. -/
theorem generate_success_passthrough_witness :
    ("summarize" : String) ≠ "" ∧
      generate_5ws { task_name := "summarize", payload := Json.obj [] }
          (Except.ok (Json.obj [("result", Json.str "...")])) =
        Except.ok { status_code := 200
                    content := Json.obj [("result", Json.str "...")] } :=
  ⟨by decide,
    generate_success_passthrough
      { task_name := "summarize", payload := Json.obj [] }
      (Json.obj [("result", Json.str "...")]) (by decide)⟩

/-- C2: when `process_task` raises a `NetworkException`,
`LLMProviderException`, `TimeoutException`, `InvalidPayloadException` or
`NextGenException`, the `/generate` except-clause chain re-raises the very
same exception value unchanged (hence its status and detail are
preserved). -/
theorem generate_reraises_typed_faults (e : Exc)
    (h : e.kind = ExcKind.networkException ∨ e.kind = ExcKind.llmProviderException ∨
      e.kind = ExcKind.timeoutException ∨ e.kind = ExcKind.invalidPayloadException ∨
      e.kind = ExcKind.nextGenException) :
    generate_5ws request (Except.error e) = Except.error e := by
  rcases e with ⟨k, d⟩
  simp only at h
  rcases h with h | h | h | h | h <;> subst h <;> rfl

/-- Witness for C2: a concrete `NetworkException` is re-raised unchanged. -/
theorem generate_reraises_typed_faults_witness :
    ((ExcKind.networkException = ExcKind.networkException ∨
        ExcKind.networkException = ExcKind.llmProviderException ∨
        ExcKind.networkException = ExcKind.timeoutException ∨
        ExcKind.networkException = ExcKind.invalidPayloadException ∨
        ExcKind.networkException = ExcKind.nextGenException) ∧
      generate_5ws { task_name := "summarize", payload := Json.obj [] }
          (Except.error { kind := ExcKind.networkException, detail := "connection refused" }) =
        Except.error { kind := ExcKind.networkException, detail := "connection refused" }) :=
  ⟨Or.inl rfl,
    generate_reraises_typed_faults
      { kind := ExcKind.networkException, detail := "connection refused" }
      (Or.inl rfl)⟩

/-- C3: the global exception handler maps every exception, of any kind and
with any message, to status 500 and body
`\x7b"detail": "Internal server error"\x7d`. -/
theorem global_handler_fixed_500 (exc : Exc) :
    global_exception_handler exc =
      { status_code := 500
        content := Json.obj [("detail", Json.str "Internal server error")] } := rfl

/-- C4: in the `/generate` fault dispatch, validation errors are classified
as `InvalidPayloadException` before any provider-specific kind is
considered, and a fault matched by none of the named except-clauses falls
through to the generic `NextGenException` branch. -/
theorem generate_dispatch_specificity (e : Exc) :
    ((e.kind = ExcKind.validationError ∨ e.kind = ExcKind.requestValidationError) →
        (generate_dispatch e).kind = ExcKind.invalidPayloadException) ∧
      (generateCaught e.kind = false →
        (generate_dispatch e).kind = ExcKind.nextGenException) := by
  rcases e with ⟨k, d⟩
  cases k <;> simp [generate_dispatch, generateCaught]

/-- Witness for C4: a `ValidationError` becomes an
`InvalidPayloadException`; an unrecognized fault becomes a
`NextGenException`. -/
theorem generate_dispatch_specificity_witness :
    (generate_dispatch { kind := ExcKind.validationError, detail := "bad body" }).kind =
        ExcKind.invalidPayloadException ∧
      (generate_dispatch { kind := ExcKind.otherException, detail := "oops" }).kind =
        ExcKind.nextGenException :=
  ⟨(generate_dispatch_specificity
      { kind := ExcKind.validationError, detail := "bad body" }).1 (Or.inl rfl),
    (generate_dispatch_specificity
      { kind := ExcKind.otherException, detail := "oops" }).2 rfl⟩

/-- C5: an exception matched by none of the named except-clauses of
`/generate` is wrapped into a generic `NextGenException` whose detail
carries the original exception's message (after the prefix
"Unhandled error in /generate: "). -/
theorem generate_wraps_unexpected (e : Exc) (h : generateCaught e.kind = false) :
    generate_dispatch e =
      { kind := ExcKind.nextGenException
        detail := "Unhandled error in /generate: " ++ strOfExc e } := by
  rcases e with ⟨k, d⟩
  cases k <;> simp_all [generate_dispatch, generateCaught, strOfExc]

/-- Witness for C5: a concrete unrecognized exception is wrapped with its
message embedded. -/
theorem generate_wraps_unexpected_witness :
    generateCaught ExcKind.otherException = false ∧
      generate_dispatch { kind := ExcKind.otherException, detail := "division by zero" } =
        { kind := ExcKind.nextGenException
          detail := "Unhandled error in /generate: division by zero" } :=
  ⟨rfl,
    generate_wraps_unexpected
      { kind := ExcKind.otherException, detail := "division by zero" } rfl⟩

/-- C6: under normal conditions `GET /` returns 200 with
`\x7b"message": "NextGen API is live!"\x7d`, `GET /capabilities` returns 200
with `\x7b"models": [...]\x7d`, and `POST /heartbeat` returns 200 with
`\x7b"info": "heartbeat OK", "role": "backend"\x7d` — exactly these literal
payloads. -/
theorem fixed_routes_literal_payloads :
    index = { status_code := 200
              content := Json.obj [("message", Json.str "NextGen API is live!")] } ∧
      get_capabilities = Except.ok
        { status_code := 200
          content := Json.obj [("models", Json.arr
            [Json.str "03-mini-openai", Json.str "gpt-4", Json.str "llama-3"])] } ∧
      heartbeat = Except.ok
        { status_code := 200
          content := Json.obj [("info", Json.str "heartbeat OK"),
            ("role", Json.str "backend")] } :=
  ⟨rfl, rfl, rfl⟩

/-- C7: the allowed cross-origin request sources are controlled by the
single environment variable `ALLOWED_ORIGINS`, read as a comma-separated
list; when the variable is absent the default value "*" makes the list
`["*"]` (permissive), and when it is set to `v` the list is `v` split on
commas. -/
theorem allowed_origins_from_env (env : List (String × String)) :
    (env.lookup "ALLOWED_ORIGINS" = none → ALLOWED_ORIGINS env = ["*"]) ∧
      (∀ v, env.lookup "ALLOWED_ORIGINS" = some v →
        ALLOWED_ORIGINS env = splitComma v) := by
  constructor
  · intro h
    simp only [ALLOWED_ORIGINS, getenv, h]
    decide
  · intro v h
    simp [ALLOWED_ORIGINS, getenv, h]

/-- Witness for C7: with an empty environment the list is `["*"]`; with the
variable set to two origins the list is those two origins. -/
theorem allowed_origins_from_env_witness :
    ALLOWED_ORIGINS [] = ["*"] ∧
      ALLOWED_ORIGINS [("ALLOWED_ORIGINS", "http://a.com,http://b.com")] =
        ["http://a.com", "http://b.com"] :=
  ⟨(allowed_origins_from_env []).1 rfl,
    ((allowed_origins_from_env [("ALLOWED_ORIGINS", "http://a.com,http://b.com")]).2
        "http://a.com,http://b.com" rfl).trans (by decide)⟩

/-- C8: no route handler mutates module-level or cross-request state:
running any of the four handlers from any module state returns that state
unchanged; the only effect of `/generate` beyond its response is the
outbound provider call, whose outcome is the handler's parameter. -/
theorem handlers_preserve_state (s : ModuleState) (request : TaskRequest)
    (providerOutcome : Except Exc Json) :
    (indexSt s).1 = s ∧ (get_capabilitiesSt s).1 = s ∧ (heartbeatSt s).1 = s ∧
      (generate_5wsSt s request providerOutcome).1 = s :=
  ⟨rfl, rfl, rfl, rfl⟩

/-- C9: `index`, `get_capabilities` and `heartbeat` are deterministic with
no input or state dependence — any two invocations (from any two module
states) produce equal responses — and the `/capabilities` models list is
exactly `["03-mini-openai", "gpt-4", "llama-3"]`. -/
theorem fixed_routes_deterministic (s₁ s₂ : ModuleState) :
    (indexSt s₁).2 = (indexSt s₂).2 ∧
      (get_capabilitiesSt s₁).2 = (get_capabilitiesSt s₂).2 ∧
      (heartbeatSt s₁).2 = (heartbeatSt s₂).2 ∧
      capabilities_models = ["03-mini-openai", "gpt-4", "llama-3"] :=
  ⟨rfl, rfl, rfl, rfl⟩

/-- C10: the except-arms of `get_capabilities` and `heartbeat`, and the
fallback branch of `generate_5ws`, each raise a `NextGenException` whose
detail embeds the original exception's message after the route-specific
prefix, rather than a fixed opaque message. -/
theorem handler_wrappers_embed_message (e : Exc) :
    get_capabilities_onExc e =
        { kind := ExcKind.nextGenException
          detail := "Error in /capabilities: " ++ strOfExc e } ∧
      heartbeat_onExc e =
        { kind := ExcKind.nextGenException
          detail := "Error in /heartbeat: " ++ strOfExc e } ∧
      (generateCaught e.kind = false →
        generate_dispatch e =
          { kind := ExcKind.nextGenException
            detail := "Unhandled error in /generate: " ++ strOfExc e }) := by
  refine ⟨rfl, rfl, fun h => ?_⟩
  rcases e with ⟨k, d⟩
  cases k <;> simp_all [generate_dispatch, generateCaught, strOfExc]

/-- Witness for C10: at a concrete unrecognized exception, all three wraps
embed the message "disk full" after their prefixes. -/
theorem handler_wrappers_embed_message_witness :
    get_capabilities_onExc { kind := ExcKind.otherException, detail := "disk full" } =
        { kind := ExcKind.nextGenException
          detail := "Error in /capabilities: disk full" } ∧
      heartbeat_onExc { kind := ExcKind.otherException, detail := "disk full" } =
        { kind := ExcKind.nextGenException
          detail := "Error in /heartbeat: disk full" } ∧
      generate_dispatch { kind := ExcKind.otherException, detail := "disk full" } =
        { kind := ExcKind.nextGenException
          detail := "Unhandled error in /generate: disk full" } :=
  ⟨(handler_wrappers_embed_message
      { kind := ExcKind.otherException, detail := "disk full" }).1,
    (handler_wrappers_embed_message
      { kind := ExcKind.otherException, detail := "disk full" }).2.1,
    (handler_wrappers_embed_message
      { kind := ExcKind.otherException, detail := "disk full" }).2.2 rfl⟩
